import Mathlib

/-!
Verification of the Fastapi-ecom multi-tenant e-commerce backend.

Shallow embedding of the data model (`app/models.py`), the store layer
(`app/crud.py`), the identity/authorization layer (`app/dependencies.py`)
and the admin/product/order routers (`app/routers/*.py`).

The SQLAlchemy session is modelled by an explicit `DB` value threaded
through the operations.  An operation that raises an exception before its
`db.commit()` is modelled as returning `Except.error`: FastAPI's `get_db`
dependency closes the session after the request, which discards every
pending (uncommitted) change, so on the error path the caller-visible
database is the unchanged input `DB`.
-/

namespace Ecom

/-- Row of table `tenants` (`app/models.py`, class `Tenant`). -/
structure Tenant where
  id : Nat
  name : String
deriving Repr, DecidableEq

/-- Row of table `users` (`app/models.py`, class `User`).
`tenant_id` is nullable (`ondelete SET NULL`). -/
structure User where
  id : Nat
  username : String
  role : String
  tenant_id : Option Nat
deriving Repr, DecidableEq

/-- Row of table `products` (`app/models.py`, class `Product`).
`price` is a Python float used for exact money arithmetic in the code;
it is modelled as a rational.  `available_quantity` is a Python int. -/
structure Product where
  id : Nat
  name : String
  description : Option String
  category : Option String
  price : ℚ
  available_quantity : Int
  tenant_id : Nat
deriving Repr, DecidableEq

/-- Row of table `orders` (`app/models.py`, class `Order`). -/
structure Order where
  id : Nat
  user_id : Nat
  total_quantity : Int
  total_amount : ℚ
deriving Repr, DecidableEq

/-- Row of table `order_items` (`app/models.py`, class `OrderItem`).
`unit_price` is the price snapshot taken at order time. -/
structure OrderItem where
  order_id : Nat
  product_id : Nat
  quantity : Int
  unit_price : ℚ
deriving Repr, DecidableEq

/-- The visible database state: one list per table, plus primary-key
counters for the rows the modelled operations insert. -/
structure DB where
  tenants : List Tenant
  users : List User
  products : List Product
  orders : List Order
  order_items : List OrderItem
  next_user_id : Nat
  next_product_id : Nat
  next_order_id : Nat
deriving Repr, DecidableEq

/-- The exception taxonomy of `app/exceptions.py` (the constructors carry
the data the messages are built from), plus `http` for a bare
`fastapi.HTTPException` and `valueError` for a Python `ValueError`
(translated to status 400 by the orders router). -/
inductive ApiError where
  | resourceNotFound (resource : String) (identifier : String)
  | resourceAlreadyExists (resource : String) (field : String)
  | permissionDenied (message : String)
  | invalidOperation (message : String)
  | invalidToken (message : String)
  | valueError (message : String)
  | http (status : Nat) (detail : String)
deriving Repr, DecidableEq

/-- HTTP status attached to each error by `app/exceptions.py` /
`app/main.py` / the orders router's `except ValueError` handler. -/
def ApiError.status : ApiError → Nat
  | .resourceNotFound _ _ => 404
  | .resourceAlreadyExists _ _ => 400
  | .permissionDenied _ => 403
  | .invalidOperation _ => 400
  | .invalidToken _ => 401
  | .valueError _ => 400
  | .http s _ => s

-- ============ TENANT / USER / PRODUCT LOOKUPS (`app/crud.py`) ============

/-- Python's `str.lower()` / SQL `lower(...)` on the ASCII identifiers
used by the code, modelled character-wise. -/
def lowerChars (s : String) : List Char := s.data.map Char.toLower

/-- `crud.get_tenant_by_name`: case-insensitive first match on name. -/
def get_tenant_by_name (db : DB) (name : String) : Option Tenant :=
  db.tenants.find? (fun t => lowerChars t.name == lowerChars name)

/-- `crud.get_user_by_username`: first match on username. -/
def get_user_by_username (db : DB) (username : String) : Option User :=
  db.users.find? (fun u => u.username == username)

/-- `crud.get_product`: first match on primary key. -/
def get_product (db : DB) (product_id : Nat) : Option Product :=
  db.products.find? (fun p => p.id == product_id)

/-- Lookup in a bare product list (the session's view of table
`products` while an order transaction is in progress). -/
def find_product (ps : List Product) (product_id : Nat) : Option Product :=
  ps.find? (fun p => p.id == product_id)

-- ============ PRODUCT STORE (`app/crud.py`) ============

/-- Body of `schemas.ProductCreate`. -/
structure ProductCreate where
  name : String
  description : Option String
  category : Option String
  price : ℚ
  available_quantity : Int
deriving Repr, DecidableEq

/-- `crud.create_product(db, tenant, data)` (the schema-object call style
used by the product router).  The duplicate check is case-insensitive on
the name, scoped to the tenant; the raise happens before any `db.add`. -/
def create_product (db : DB) (tenant : Tenant) (data : ProductCreate) :
    Except ApiError (DB × Product) :=
  match db.products.find?
      (fun p => p.tenant_id == tenant.id && lowerChars p.name == lowerChars data.name) with
  | some _ => .error (.resourceAlreadyExists "Product" "name")
  | none =>
      let product : Product :=
        { id := db.next_product_id
          name := data.name
          description := data.description
          category := data.category
          price := data.price
          available_quantity := data.available_quantity
          tenant_id := tenant.id }
      .ok ({ db with
              products := db.products ++ [product]
              next_product_id := db.next_product_id + 1 }, product)

/-- The `updates` dict built by the product router from
`data.dict(exclude_unset=True)`: each set field overwrites the product. -/
structure ProductUpdates where
  name : Option String
  description : Option String
  category : Option String
  price : Option ℚ
  available_quantity : Option Int
deriving Repr, DecidableEq

/-- The `for k, v in updates.items(): setattr(product, k, v)` loop of
`crud.update_product`. -/
def apply_updates (p : Product) (u : ProductUpdates) : Product :=
  { p with
      name := u.name.getD p.name
      description := match u.description with | some d => some d | none => p.description
      category := match u.category with | some c => some c | none => p.category
      price := u.price.getD p.price
      available_quantity := u.available_quantity.getD p.available_quantity }

/-- `crud.update_product`: 404 on a missing id; then only a platform
admin, or a tenant admin whose `tenant_id` equals the product's
`tenant_id`, may mutate; otherwise `PermissionDeniedError`. -/
def update_product (db : DB) (product_id : Nat) (updates : ProductUpdates)
    (user : User) : Except ApiError (DB × Product) :=
  match get_product db product_id with
  | none => .error (.resourceNotFound "Product" (toString product_id))
  | some product =>
      if user.role ≠ "platform_admin" ∧
          (user.role ≠ "tenant_admin" ∨ user.tenant_id ≠ some product.tenant_id) then
        .error (.permissionDenied "Only tenant admin can update products")
      else
        let product2 := apply_updates product updates
        .ok ({ db with
                products := db.products.map
                  (fun q => if q.id == product_id then product2 else q) }, product2)

/-- `crud.delete_product`: same guard as `crud.update_product`, then the
row is removed. -/
def delete_product (db : DB) (product_id : Nat) (user : User) :
    Except ApiError DB :=
  match get_product db product_id with
  | none => .error (.resourceNotFound "Product" (toString product_id))
  | some product =>
      if user.role ≠ "platform_admin" ∧
          (user.role ≠ "tenant_admin" ∨ user.tenant_id ≠ some product.tenant_id) then
        .error (.permissionDenied "Only tenant admin can delete products")
      else
        .ok { db with products := db.products.filter (fun q => q.id ≠ product_id) }

-- ============ AUTHORIZATION GUARDS (`app/dependencies.py`) ============

/-- `dependencies.require_tenant_admin`: platform admins bypass the
check; otherwise the user must be a tenant admin of the path tenant. -/
def require_tenant_admin (tenant : Tenant) (user : User) : Except ApiError User :=
  if user.role = "platform_admin" then .ok user
  else if user.role ≠ "tenant_admin" then
    .error (.permissionDenied "Tenant admin required")
  else if user.tenant_id ≠ some tenant.id then
    .error (.permissionDenied "Tenant admin for this tenant required")
  else .ok user

-- ============ IDENTITY RESOLVER (`app/dependencies.py`) ============

/-- The verified JWT claims consumed by `get_current_user`.  `none`
models an absent key; `realm_roles` is `claims['realm_access']['roles']`
when `realm_access` is present and a dict. -/
structure Claims where
  preferred_username : Option String
  sub : Option String
  realm_roles : Option (List String)
  role : Option String
  tenant : Option String
  tenant_name : Option String
deriving Repr, DecidableEq

/-- Python's `a or b` on two optional strings: `a` wins unless it is
absent or falsy (the empty string). -/
def py_or (a b : Option String) : Option String :=
  match a with
  | some s => if s.isEmpty then b else some s
  | none => b

/-- Python truthiness of an optional string. -/
def py_truthy (a : Option String) : Bool :=
  match a with
  | some s => !s.isEmpty
  | none => false

/-- Role derivation of `get_current_user` (dependencies.py lines 56-65):
start from `'user'`, look at `realm_access.roles` with `platform_admin`
checked before `tenant_admin`, then let an explicit `role` claim
overwrite the result. -/
def derive_role (claims : Claims) : String :=
  let role := "user"
  let role :=
    match claims.realm_roles with
    | some roles =>
        if roles.contains "platform_admin" then "platform_admin"
        else if roles.contains "tenant_admin" then "tenant_admin"
        else role
    | none => role
  match claims.role with
  | some r => r
  | none => role

/-- Tenant resolution of `get_current_user` (lines 67-70):
`claims.get('tenant') or claims.get('tenant_name')`, looked up by name;
no match (or no claim) silently yields no tenant. -/
def token_tenant (db : DB) (claims : Claims) : Option Tenant :=
  let tenant_name := py_or claims.tenant claims.tenant_name
  match tenant_name with
  | some s => if s.isEmpty then none else get_tenant_by_name db s
  | none => none

/-- `crud.create_user`: duplicate-username check, then insert. -/
def create_user (db : DB) (username : String) (role : String)
    (tenant : Option Tenant) : Except ApiError (DB × User) :=
  match get_user_by_username db username with
  | some _ => .error (.resourceAlreadyExists "User" "username")
  | none =>
      let user : User :=
        { id := db.next_user_id
          username := username
          role := role
          tenant_id := tenant.map (fun t => t.id) }
      .ok ({ db with
              users := db.users ++ [user]
              next_user_id := db.next_user_id + 1 }, user)

/-- Replace the row of `u2` in the users table (the effect of
`db.add(user); db.commit()` on an already-loaded row). -/
def put_user (users : List User) (u2 : User) : List User :=
  users.map (fun v => if v.id == u2.id then u2 else v)

/-- The get-or-create / claims-sync tail of `get_current_user`
(lines 52-91): derive username, role and tenant from the claims;
auto-provision a missing local user; for an existing user overwrite the
role when it differs and the tenant only when the token carries one that
differs from the stored link; commit only when something changed. -/
def resolve_user (db : DB) (claims : Claims) : Except ApiError (DB × User) :=
  match py_or claims.preferred_username claims.sub with
  | none => .error (.invalidToken "Token missing username/sub claim")
  | some username =>
      if username.isEmpty then .error (.invalidToken "Token missing username/sub claim")
      else
        let role := derive_role claims
        let tenant := token_tenant db claims
        match get_user_by_username db username with
        | none => create_user db username role tenant
        | some user =>
            let upd1 : Bool := user.role != role
            let u1 := if user.role ≠ role then { user with role := role } else user
            let tmatch : Bool :=
              match tenant with
              | some t => u1.tenant_id.isNone || u1.tenant_id != some t.id
              | none => false
            let u2 :=
              match tenant with
              | some t =>
                  if u1.tenant_id.isNone ∨ u1.tenant_id ≠ some t.id then
                    { u1 with tenant_id := some t.id }
                  else u1
              | none => u1
            if upd1 || tmatch then
              .ok ({ db with users := put_user db.users u2 }, u2)
            else
              .ok (db, u2)

-- ============ ADMIN TENANT-USER ENDPOINTS (`app/routers/admin.py`) ============

/-- Body of `schemas.UserCreate` (password omitted: it is only forwarded
to the identity provider). -/
structure UserCreate where
  username : String
  role : String
deriving Repr, DecidableEq

/-- Outcome of the Keycloak mirror step
(`keycloak_admin._get_user_id` followed by `update_user_role`):
`ok` - the user was found and the role mirror succeeded;
`missing` - `_get_user_id` returned `None`, so the mirror is skipped;
`failure` - either call raised, which the router catches, logs and
re-raises as `HTTPException(500)`. -/
inductive KcSync where
  | ok
  | missing
  | failure
deriving Repr, DecidableEq

/-- Local tail of `update_tenant_user` / `assign_user_to_tenant`
(admin.py lines 69-81 resp. 100-112): set the role, then set the tenant
link to the path tenant for `tenant_admin` and clear it for
`platform_admin` / `user` (`assign` clears it for every non-tenant_admin
role), then commit. -/
def set_role_and_tenant (db : DB) (tenant : Tenant) (user : User)
    (data_role : String) (clear_all_others : Bool) : DB × User :=
  let u1 := { user with role := data_role }
  let u2 :=
    if data_role = "platform_admin" ∨ data_role = "user" then
      { u1 with tenant_id := none }
    else if data_role = "tenant_admin" then
      { u1 with tenant_id := some tenant.id }
    else if clear_all_others then
      { u1 with tenant_id := none }
    else u1
  ({ db with users := put_user db.users u2 }, u2)

/-- `admin.update_tenant_user` (`PUT /tenants/{t}/users/{id}`): find the
user scoped to the path tenant (404 otherwise); when the role changes,
mirror to Keycloak first - a raised mirror error aborts the request with
HTTP 500 before any local change; then apply the local role/tenant
change and commit. -/
def update_tenant_user (db : DB) (tenant : Tenant) (user_id : Nat)
    (data : UserCreate) (kc : KcSync) : Except ApiError (DB × User) :=
  match db.users.find? (fun u => u.id == user_id && u.tenant_id == some tenant.id) with
  | none => .error (.resourceNotFound "User" (toString user_id))
  | some user =>
      if user.role ≠ data.role ∧ kc = .failure then
        .error (.http 500 "Failed to update role in Keycloak")
      else
        .ok (set_role_and_tenant db tenant user data.role false)

/-- `admin.assign_user_to_tenant` (`POST /tenants/{t}/users/assign`):
find the user by username (404 otherwise); same Keycloak mirror step as
`update_tenant_user`; then set the role, attaching the path tenant for
`tenant_admin` and clearing the link for every other role. -/
def assign_user_to_tenant (db : DB) (tenant : Tenant) (data : UserCreate)
    (kc : KcSync) : Except ApiError (DB × User) :=
  match get_user_by_username db data.username with
  | none => .error (.resourceNotFound "User" data.username)
  | some user =>
      if user.role ≠ data.role ∧ kc = .failure then
        .error (.http 500 "Failed to update role in Keycloak")
      else
        .ok (set_role_and_tenant db tenant user data.role true)

/-- `admin.create_tenant_user` (`POST /tenants/{t}/users/`): duplicate
check, Keycloak creation (hard failure aborts with 500), then
`crud.create_user` with the path tenant attached whatever the role. -/
def create_tenant_user (db : DB) (tenant : Tenant) (data : UserCreate)
    (kc_create_raises : Bool) : Except ApiError (DB × User) :=
  match get_user_by_username db data.username with
  | some _ => .error (.resourceAlreadyExists "User" "username")
  | none =>
      if kc_create_raises then
        .error (.http 500 "Failed to create user in Keycloak")
      else
        create_user db data.username data.role (some tenant)

/-- `crud.delete_tenant`: dissociate every user of the tenant
(`tenant_id` set to NULL, roles untouched), then delete the tenant row;
its products go with it (`ondelete CASCADE`). -/
def delete_tenant (db : DB) (tenant : Tenant) : DB :=
  { db with
      users := db.users.map
        (fun u => if u.tenant_id == some tenant.id then { u with tenant_id := none } else u)
      tenants := db.tenants.filter (fun t => t.id ≠ tenant.id)
      products := db.products.filter (fun p => p.tenant_id ≠ tenant.id) }

-- ============ ORDER TRANSACTION ENGINE (`app/crud.py`, create_order) ============

/-- One element of the `items_data` list: `{'product_id': .., 'quantity': ..}`. -/
structure OrderItemInput where
  product_id : Nat
  quantity : Int
deriving Repr, DecidableEq

/-- An `OrderItem` staged in the session before the order id exists. -/
structure PendingItem where
  product_id : Nat
  quantity : Int
  unit_price : ℚ
deriving Repr, DecidableEq

/-- The session effect of `db.add(prod)` after mutating a loaded product
row: every row with that primary key now reads as `p2`. -/
def apply_stock (ps : List Product) (p2 : Product) : List Product :=
  ps.map (fun q => if q.id == p2.id then p2 else q)

/-- The `for it in items_data` loop of `crud.create_order`
(crud.py lines 239-263), threading the session's view of the products
table: reject a non-positive quantity, a missing product, and a
quantity above the current stock; otherwise snapshot the unit price,
stage the order item and decrement the stock in place. -/
def process_items (ps : List Product) (items : List OrderItemInput) :
    Except ApiError (List Product × List PendingItem × Int × ℚ) :=
  match items with
  | [] => .ok (ps, [], 0, 0)
  | it :: rest =>
      if it.quantity ≤ 0 then
        .error (.valueError "Invalid quantity. Quantity must be positive.")
      else
        match find_product ps it.product_id with
        | none => .error (.resourceNotFound "Product" (toString it.product_id))
        | some prod =>
            if prod.available_quantity < it.quantity then
              .error (.valueError "Insufficient stock")
            else
              let unit_price := prod.price
              let ps2 := apply_stock ps
                { prod with available_quantity := prod.available_quantity - it.quantity }
              match process_items ps2 rest with
              | .error e => .error e
              | .ok (ps3, pend, tq, ta) =>
                  .ok (ps3, ⟨it.product_id, it.quantity, unit_price⟩ :: pend,
                       it.quantity + tq, unit_price * it.quantity + ta)

/-- `crud.create_order`: reject an empty item list, run the item loop,
then commit the order row, its items and the stock decrements together
(the single `db.commit()` on line 267). -/
def create_order (db : DB) (user : User) (items_data : List OrderItemInput) :
    Except ApiError (DB × Order) :=
  if items_data.isEmpty then
    .error (.invalidOperation "Order must contain at least one item")
  else
    match process_items db.products items_data with
    | .error e => .error e
    | .ok (ps, pend, tq, ta) =>
        let order : Order :=
          { id := db.next_order_id, user_id := user.id
            total_quantity := tq, total_amount := ta }
        .ok ({ db with
                products := ps
                orders := db.orders ++ [order]
                order_items := db.order_items ++
                  pend.map (fun pi => ⟨order.id, pi.product_id, pi.quantity, pi.unit_price⟩)
                next_order_id := db.next_order_id + 1 }, order)

/-- `POST /orders/` as the client sees it: on any raised error the
session is closed without a commit, so the visible database is the
unchanged input. -/
def create_order_endpoint (db : DB) (user : User)
    (items_data : List OrderItemInput) : DB × Except ApiError Order :=
  match create_order db user items_data with
  | .error e => (db, .error e)
  | .ok (db2, o) => (db2, .ok o)

/-- The three per-item failure conditions of the loop, evaluated against
the session state the item is processed in. -/
def item_fails (ps : List Product) (it : OrderItemInput) : Bool :=
  it.quantity ≤ 0 ||
    match find_product ps it.product_id with
    | none => true
    | some prod => prod.available_quantity < it.quantity

/-- Total quantity of `pid` requested across an item list. -/
def orderedQty (pid : Nat) (items : List OrderItemInput) : Int :=
  ((items.filter (fun it => it.product_id == pid)).map (fun it => it.quantity)).sum

/-- Price of a product id in a table snapshot (0 when absent). -/
def priceOf (ps : List Product) (pid : Nat) : ℚ :=
  match find_product ps pid with
  | some p => p.price
  | none => 0

-- ============ PRODUCT ROUTER (`app/routers/products.py`) ============

/-- `GET /{tenant}/products/{id}`: 404 when the id is missing or the
product belongs to a different tenant than the path tenant. -/
def router_get_product (db : DB) (tenant : Tenant) (product_id : Nat) :
    Except ApiError Product :=
  match get_product db product_id with
  | none => .error (.resourceNotFound "Product" (toString product_id))
  | some p =>
      if p.tenant_id ≠ tenant.id then
        .error (.resourceNotFound "Product" (toString product_id))
      else .ok p

/-- `DELETE /{tenant}/products/{id}`: same existence/tenant check as
the GET route, then `crud.delete_product`. -/
def router_delete_product (db : DB) (tenant : Tenant) (product_id : Nat)
    (user : User) : Except ApiError DB :=
  match get_product db product_id with
  | none => .error (.resourceNotFound "Product" (toString product_id))
  | some p =>
      if p.tenant_id ≠ tenant.id then
        .error (.resourceNotFound "Product" (toString product_id))
      else delete_product db product_id user

-- ============ PAGINATION PARAMETERS ============

/-- `settings.DEFAULT_SKIP` (`app/config.py`). -/
def DEFAULT_SKIP : Int := 0

/-- `settings.DEFAULT_LIMIT` (`app/config.py`). -/
def DEFAULT_LIMIT : Int := 10

/-- `settings.MAX_LIMIT` (`app/config.py`). -/
def MAX_LIMIT : Int := 100

/-- `GET /orders/` declares `skip: Query(ge=0)` and
`limit: Query(ge=1, le=MAX_LIMIT)`: FastAPI rejects anything else. -/
def orders_list_accepts (skip limit : Int) : Bool :=
  0 ≤ skip && (1 ≤ limit && limit ≤ MAX_LIMIT)

/-- `GET /tenants/{t}/users/` declares the same `Query` bounds as the
orders list. -/
def tenant_users_list_accepts (skip limit : Int) : Bool :=
  0 ≤ skip && (1 ≤ limit && limit ≤ MAX_LIMIT)

/-- `ProductFilterParams` (dependencies.py lines 12-17) declares
`skip: int = 0` and `limit: int = 10` with no bounds, so the tenant and
global product listings accept every integer pair. -/
def product_filter_accepts (_skip _limit : Int) : Bool :=
  true

/-- `GET /users/me/favourites` declares plain `skip: int = 0` and
`limit: int = 10` parameters with no bounds. -/
def favourites_list_accepts (_skip _limit : Int) : Bool :=
  true

-- ============ CONCRETE FIXTURES (the spec's Nike scenario) ============

/-- Tenant Nike. -/
def nikeTenant : Tenant := ⟨1, "Nike"⟩

/-- Tenant Adidas. -/
def adidasTenant : Tenant := ⟨2, "Adidas"⟩

/-- Product Air Max, price 120.0, 50 in stock, owned by Nike. -/
def airMax : Product := ⟨1, "Air Max", none, none, 120, 50, 1⟩

/-- A plain customer with no tenant link. -/
def alice : User := ⟨1, "alice", "user", none⟩

/-- A tenant admin of Adidas (tenant 2). -/
def adidasAdmin : User := ⟨2, "ada", "tenant_admin", some 2⟩

/-- A customer attached to Nike (tenant 1). -/
def bob : User := ⟨3, "bob", "user", some 1⟩

/-- Database with both tenants, the three users and the Air Max product. -/
def nikeDB : DB :=
  ⟨[nikeTenant, adidasTenant], [alice, adidasAdmin, bob], [airMax], [], [], 4, 2, 1⟩

-- ============ THEOREMS ============

/-- C4: the resolved role is derived from the roles list with precedence
platform_admin > tenant_admin > default user (first match wins), and an
explicit role claim, when present, overrides the derived role; a roles
list containing both platform_admin and tenant_admin resolves to
platform_admin. -/
theorem role_precedence_and_override (c : Claims) (roles : List String) (r : String) :
    (c.role = some r → derive_role c = r)
  ∧ (c.role = none → c.realm_roles = some roles →
      ((roles.contains "platform_admin" = true → derive_role c = "platform_admin")
       ∧ (roles.contains "platform_admin" = false → roles.contains "tenant_admin" = true →
            derive_role c = "tenant_admin")
       ∧ (roles.contains "platform_admin" = false → roles.contains "tenant_admin" = false →
            derive_role c = "user")))
  ∧ (c.role = none → c.realm_roles = none → derive_role c = "user")
  ∧ derive_role ⟨none, none, some ["platform_admin", "tenant_admin"], none, none, none⟩
      = "platform_admin" := by
  refine ⟨?_, ?_, ?_, by decide⟩
  · intro h
    simp [derive_role, h]
  · intro h hr
    refine ⟨?_, ?_, ?_⟩
    · intro h1
      simp at h1
      simp [derive_role, h, hr, h1]
    · intro h1 h2
      simp at h1 h2
      simp [derive_role, h, hr, h1, h2]
    · intro h1 h2
      simp at h1 h2
      simp [derive_role, h, hr, h1, h2]
  · intro h hr
    simp [derive_role, h, hr]

/-- Witness for `role_precedence_and_override` at a token carrying both
admin roles and no explicit role claim. -/
theorem role_precedence_and_override_witness :
    derive_role ⟨some "u", none, some ["platform_admin", "tenant_admin"], none, none, none⟩
      = "platform_admin" :=
  ((role_precedence_and_override
      ⟨some "u", none, some ["platform_admin", "tenant_admin"], none, none, none⟩
      ["platform_admin", "tenant_admin"] "z").2.1 rfl rfl).1 (by decide)

/-- C9 counterexample: the claim that every list endpoint rejects
out-of-bounds skip/limit is false - the product listings
(`ProductFilterParams`) and the favourites listing accept a limit of
1000 and a negative skip, which the claimed bounds would reject. -/
theorem pagination_unbounded_counterexample :
    product_filter_accepts 0 1000 = true
  ∧ product_filter_accepts (-5) 10 = true
  ∧ favourites_list_accepts (-5) 1000 = true
  ∧ orders_list_accepts 0 1000 = false := by
  refine ⟨rfl, rfl, rfl, by decide⟩

/-- C9 amended: only the orders list and the tenant-users list validate
skip ≥ 0 and limit in 1..100 (defaults 0/10, max 100); the tenant and
global product listings and the favourites listing accept every integer
pair. -/
theorem pagination_bounds_amended :
    (∀ skip limit : Int,
        orders_list_accepts skip limit = true ↔ (0 ≤ skip ∧ 1 ≤ limit ∧ limit ≤ 100))
  ∧ (∀ skip limit : Int,
        tenant_users_list_accepts skip limit = orders_list_accepts skip limit)
  ∧ (∀ skip limit : Int, product_filter_accepts skip limit = true)
  ∧ (∀ skip limit : Int, favourites_list_accepts skip limit = true)
  ∧ DEFAULT_SKIP = 0 ∧ DEFAULT_LIMIT = 10 ∧ MAX_LIMIT = 100 := by
  refine ⟨fun s l => ?_, fun _ _ => rfl, fun _ _ => rfl, fun _ _ => rfl, rfl, rfl, rfl⟩
  simp [orders_list_accepts, MAX_LIMIT]

/-- Witness for `pagination_bounds_amended`: the default pair is inside
the validated bounds of the orders list. -/
theorem pagination_bounds_amended_witness : orders_list_accepts 0 10 = true :=
  (pagination_bounds_amended.1 0 10).mpr (by decide)

/-- C10: when a product exists but belongs to a tenant other than the
path tenant, both `GET /{tenant}/products/{id}` and
`DELETE /{tenant}/products/{id}` answer the same NotFound error they
answer when the product id does not exist at all. -/
theorem tenant_scoped_product_not_found (db : DB) (t : Tenant) (pid : Nat)
    (p : Product) (user : User)
    (hp : get_product db pid = some p) (hne : p.tenant_id ≠ t.id) :
    router_get_product db t pid = .error (.resourceNotFound "Product" (toString pid))
  ∧ router_delete_product db t pid user
      = .error (.resourceNotFound "Product" (toString pid))
  ∧ router_get_product
      { db with products := db.products.filter (fun q => q.id ≠ pid) } t pid
      = .error (.resourceNotFound "Product" (toString pid)) := by
  have hgone :
      get_product { db with products := db.products.filter (fun q => q.id ≠ pid) } pid
        = none := by
    apply List.find?_eq_none.mpr
    intro x hx
    have hx2 := (List.mem_filter.mp hx).2
    simp only [decide_eq_true_eq] at hx2
    simp [hx2]
  refine ⟨?_, ?_, ?_⟩
  · simp [router_get_product, hp, hne]
  · simp [router_delete_product, hp, hne]
  · simp only [router_get_product]
    rw [hgone]

/-- Witness for `tenant_scoped_product_not_found`: the Air Max product
of Nike requested under the Adidas path. -/
theorem tenant_scoped_product_not_found_witness :
    router_get_product nikeDB adidasTenant 1
      = .error (.resourceNotFound "Product" "1") :=
  (tenant_scoped_product_not_found nikeDB adidasTenant 1 airMax alice rfl
    (by decide)).1

/-- C3: for an existing product, `crud.update_product` and
`crud.delete_product` succeed exactly for a platform admin or a tenant
admin of the product's owning tenant and answer PermissionDenied (403)
in every other case; `require_tenant_admin` (which guards product
creation for the path tenant) allows exactly the same principals
relative to the path tenant. -/
theorem product_mutation_authorization (db : DB) (pid : Nat) (upd : ProductUpdates)
    (user : User) (t : Tenant) (p : Product)
    (hp : get_product db pid = some p) :
    ((user.role = "platform_admin"
        ∨ (user.role = "tenant_admin" ∧ user.tenant_id = some p.tenant_id)) →
      (∃ r, update_product db pid upd user = .ok r)
      ∧ (∃ db2, delete_product db pid user = .ok db2))
  ∧ (¬(user.role = "platform_admin"
        ∨ (user.role = "tenant_admin" ∧ user.tenant_id = some p.tenant_id)) →
      update_product db pid upd user
          = .error (.permissionDenied "Only tenant admin can update products")
      ∧ delete_product db pid user
          = .error (.permissionDenied "Only tenant admin can delete products"))
  ∧ (require_tenant_admin t user = .ok user ↔
      (user.role = "platform_admin"
        ∨ (user.role = "tenant_admin" ∧ user.tenant_id = some t.id)))
  ∧ (¬(user.role = "platform_admin"
        ∨ (user.role = "tenant_admin" ∧ user.tenant_id = some t.id)) →
      ∃ m, require_tenant_admin t user = .error (.permissionDenied m)) := by
  refine ⟨?_, ?_, ?_, ?_⟩
  · intro hallow
    have hcond : ¬(user.role ≠ "platform_admin"
        ∧ (user.role ≠ "tenant_admin" ∨ user.tenant_id ≠ some p.tenant_id)) := by
      tauto
    constructor
    · simp only [update_product, hp]
      rw [if_neg hcond]
      exact ⟨_, rfl⟩
    · simp only [delete_product, hp]
      rw [if_neg hcond]
      exact ⟨_, rfl⟩
  · intro hdeny
    have hcond : user.role ≠ "platform_admin"
        ∧ (user.role ≠ "tenant_admin" ∨ user.tenant_id ≠ some p.tenant_id) := by
      tauto
    exact ⟨by simp [update_product, hp, hcond], by simp [delete_product, hp, hcond]⟩
  · constructor
    · intro hok
      by_cases hpa : user.role = "platform_admin"
      · exact Or.inl hpa
      · by_cases hta : user.role = "tenant_admin"
        · by_cases htid : user.tenant_id = some t.id
          · exact Or.inr ⟨hta, htid⟩
          · simp [require_tenant_admin, hpa, hta, htid] at hok
        · simp [require_tenant_admin, hpa, hta] at hok
    · rintro (hpa | ⟨hta, htid⟩)
      · simp [require_tenant_admin, hpa]
      · have hpa : user.role ≠ "platform_admin" := by
          rw [hta]; decide
        simp [require_tenant_admin, hpa, hta, htid]
  · intro hdeny
    by_cases hpa : user.role = "platform_admin"
    · exact absurd (Or.inl hpa) hdeny
    · by_cases hta : user.role = "tenant_admin"
      · by_cases htid : user.tenant_id = some t.id
        · exact absurd (Or.inr ⟨hta, htid⟩) hdeny
        · refine ⟨"Tenant admin for this tenant required", ?_⟩
          simp [require_tenant_admin, hpa, hta, htid]
      · refine ⟨"Tenant admin required", ?_⟩
        simp [require_tenant_admin, hpa, hta]

/-- Witness for `product_mutation_authorization`: the Adidas tenant
admin is denied updating Nike's Air Max product. -/
theorem product_mutation_authorization_witness :
    update_product nikeDB 1 ⟨none, none, none, none, none⟩ adidasAdmin
      = .error (.permissionDenied "Only tenant admin can update products") :=
  ((product_mutation_authorization nikeDB 1 ⟨none, none, none, none, none⟩
      adidasAdmin nikeTenant airMax rfl).2.1 (by decide)).1

/-- C8: `crud.create_product` fails AlreadyExists exactly when the
tenant already owns a product with the same name case-insensitively
(the raise happens before any insert, so the failing call adds
nothing); without such a collision - in particular for the same name
under a different tenant - the product is inserted. -/
theorem create_product_name_uniqueness (db : DB) (t : Tenant) (data : ProductCreate) :
    (create_product db t data = .error (.resourceAlreadyExists "Product" "name")
       ↔ ∃ p ∈ db.products, p.tenant_id = t.id ∧ lowerChars p.name = lowerChars data.name)
  ∧ ((¬∃ p ∈ db.products, p.tenant_id = t.id ∧ lowerChars p.name = lowerChars data.name) →
      ∃ prod, create_product db t data =
          .ok ({ db with products := db.products ++ [prod],
                         next_product_id := db.next_product_id + 1 }, prod)
        ∧ prod.name = data.name ∧ prod.tenant_id = t.id) := by
  cases hfind : db.products.find?
      (fun p => p.tenant_id == t.id && lowerChars p.name == lowerChars data.name) with
  | none =>
      have hnone := List.find?_eq_none.mp hfind
      constructor
      · constructor
        · intro h
          simp [create_product, hfind] at h
        · rintro ⟨p, hmem, hten, hname⟩
          exact absurd (by simp [hten, hname]) (hnone p hmem)
      · intro _
        refine ⟨{ id := db.next_product_id, name := data.name,
                  description := data.description, category := data.category,
                  price := data.price, available_quantity := data.available_quantity,
                  tenant_id := t.id }, ?_, rfl, rfl⟩
        simp [create_product, hfind]
  | some q =>
      have hqmem := List.mem_of_find?_eq_some hfind
      have hq := List.find?_some hfind
      simp only [Bool.and_eq_true, beq_iff_eq] at hq
      constructor
      · constructor
        · intro _
          exact ⟨q, hqmem, hq.1, hq.2⟩
        · intro _
          simp [create_product, hfind]
      · intro hno
        exact absurd ⟨q, hqmem, hq.1, hq.2⟩ hno

/-- Witness for `create_product_name_uniqueness`: creating "AIR MAX"
under Nike collides case-insensitively with the existing "Air Max". -/
theorem create_product_name_uniqueness_witness :
    create_product nikeDB nikeTenant ⟨"AIR MAX", none, none, 10, 5⟩
      = .error (.resourceAlreadyExists "Product" "name") :=
  (create_product_name_uniqueness nikeDB nikeTenant
      ⟨"AIR MAX", none, none, 10, 5⟩).1.mpr ⟨airMax, by decide, by decide, by decide⟩

-- ============ C5 / C7 MATERIAL ============

/-- The spec's role-tenant invariant: a tenant_admin references exactly
one tenant; a user or platform_admin has no tenant link (other role
strings are unconstrained). -/
def role_tenant_inv (u : User) : Bool :=
  if u.role == "tenant_admin" then u.tenant_id.isSome
  else if u.role == "user" || u.role == "platform_admin" then u.tenant_id == none
  else true

/-- Claims of a plain user token that also names the tenant Nike. -/
def johnClaims : Claims := ⟨some "john", none, some ["user"], none, some "Nike", none⟩

/-- The row `resolve_user` auto-provisions for `johnClaims` on `nikeDB`:
role `user`, yet linked to tenant 1. -/
def johnUser : User := ⟨4, "john", "user", some 1⟩

/-- `nikeDB` after the auto-provisioning of `johnUser`. -/
def nikeDB2 : DB := { nikeDB with users := nikeDB.users ++ [johnUser], next_user_id := 5 }

/-- C5 counterexample: identity resolution does not preserve the
role-tenant invariant - a token with role `user` and tenant claim
`Nike` auto-provisions a local user with role `user` and a tenant link,
which the claimed invariant forbids. -/
theorem identity_resolution_breaks_role_tenant_inv :
    resolve_user nikeDB johnClaims = .ok (nikeDB2, johnUser)
  ∧ johnUser.role = "user"
  ∧ johnUser.tenant_id = some 1
  ∧ role_tenant_inv johnUser = false := by
  refine ⟨rfl, rfl, rfl, rfl⟩

/-- The second component of `set_role_and_tenant` always satisfies the
role-tenant invariant: the three known roles get the link the invariant
demands and any other role string is unconstrained. -/
theorem set_role_and_tenant_inv (db : DB) (t : Tenant) (user : User)
    (role : String) (b : Bool) :
    role_tenant_inv (set_role_and_tenant db t user role b).2 = true := by
  by_cases h1 : role = "platform_admin" ∨ role = "user"
  · rcases h1 with h1 | h1 <;>
      simp [set_role_and_tenant, role_tenant_inv, h1]
  · by_cases h2 : role = "tenant_admin"
    · simp [set_role_and_tenant, role_tenant_inv, h1, h2]
    · push_neg at h1
      cases b <;>
        simp [set_role_and_tenant, role_tenant_inv, h1.1, h1.2, h2]

/-- C5 amended: of the operations the claim lists, only the admin
tenant-user update and assign endpoints establish the role-tenant
invariant on the user they return; identity resolution (see the
counterexample), admin user creation (which attaches the path tenant
whatever the role) and tenant deletion (which clears tenant links
without downgrading roles) do not. -/
theorem admin_update_assign_preserve_role_tenant_inv
    (db : DB) (t : Tenant) (uid : Nat) (data : UserCreate) (kc : KcSync)
    (db2 : DB) (u2 : User) :
    (update_tenant_user db t uid data kc = .ok (db2, u2) → role_tenant_inv u2 = true)
  ∧ (assign_user_to_tenant db t data kc = .ok (db2, u2) → role_tenant_inv u2 = true) := by
  constructor
  · intro h
    unfold update_tenant_user at h
    cases hfind : db.users.find? (fun u => u.id == uid && u.tenant_id == some t.id) with
    | none => rw [hfind] at h; simp at h
    | some user =>
        rw [hfind] at h
        dsimp only at h
        by_cases hc : user.role ≠ data.role ∧ kc = KcSync.failure
        · rw [if_pos hc] at h
          simp at h
        · rw [if_neg hc] at h
          injection h with h
          have h3 := congrArg Prod.snd h
          simp only at h3
          rw [← h3]
          exact set_role_and_tenant_inv db t user data.role false
  · intro h
    unfold assign_user_to_tenant at h
    cases hfind : get_user_by_username db data.username with
    | none => rw [hfind] at h; simp at h
    | some user =>
        rw [hfind] at h
        dsimp only at h
        by_cases hc : user.role ≠ data.role ∧ kc = KcSync.failure
        · rw [if_pos hc] at h
          simp at h
        · rw [if_neg hc] at h
          injection h with h
          have h3 := congrArg Prod.snd h
          simp only at h3
          rw [← h3]
          exact set_role_and_tenant_inv db t user data.role true

/-- Witness for `admin_update_assign_preserve_role_tenant_inv`:
promoting bob (a Nike user) to tenant_admin yields a row satisfying the
invariant. -/
theorem admin_update_assign_preserve_role_tenant_inv_witness :
    role_tenant_inv ⟨3, "bob", "tenant_admin", some 1⟩ = true :=
  (admin_update_assign_preserve_role_tenant_inv nikeDB nikeTenant 3
      ⟨"bob", "tenant_admin"⟩ .ok
      { nikeDB with users := [alice, adidasAdmin, ⟨3, "bob", "tenant_admin", some 1⟩] }
      ⟨3, "bob", "tenant_admin", some 1⟩).1 rfl

/-- C7 counterexample: a raised Keycloak mirror error during a
tenant-user role update or assignment does abort the request - the
router re-raises it as HTTP 500 before the local commit, so the local
role/tenant change does not happen (asymmetry with creation does not
hold: both abort). -/
theorem kc_mirror_failure_aborts :
    update_tenant_user nikeDB nikeTenant 3 ⟨"bob", "tenant_admin"⟩ .failure
      = .error (.http 500 "Failed to update role in Keycloak")
  ∧ assign_user_to_tenant nikeDB nikeTenant ⟨"bob", "tenant_admin"⟩ .failure
      = .error (.http 500 "Failed to update role in Keycloak") := by
  refine ⟨rfl, rfl⟩

/-- C7 amended: when the stored role differs from the requested one, a
raised Keycloak mirror error aborts the tenant-user update/assign with
HTTP 500 and no local change commits; the local change commits exactly
when the mirror step raises nothing - in particular when the user has
no Keycloak account (`_get_user_id` returns None, mirror skipped) or
when the role is unchanged (mirror never attempted). -/
theorem kc_mirror_failure_behavior (db : DB) (t : Tenant) (uid : Nat)
    (data : UserCreate) (kc : KcSync) (user u2 : User)
    (hu : db.users.find? (fun u => u.id == uid && u.tenant_id == some t.id) = some user)
    (hu2 : get_user_by_username db data.username = some u2) :
    (user.role ≠ data.role → update_tenant_user db t uid data .failure
        = .error (.http 500 "Failed to update role in Keycloak"))
  ∧ (kc ≠ .failure → update_tenant_user db t uid data kc
        = .ok (set_role_and_tenant db t user data.role false))
  ∧ (user.role = data.role → update_tenant_user db t uid data kc
        = .ok (set_role_and_tenant db t user data.role false))
  ∧ (u2.role ≠ data.role → assign_user_to_tenant db t data .failure
        = .error (.http 500 "Failed to update role in Keycloak"))
  ∧ (kc ≠ .failure → assign_user_to_tenant db t data kc
        = .ok (set_role_and_tenant db t u2 data.role true))
  ∧ (u2.role = data.role → assign_user_to_tenant db t data kc
        = .ok (set_role_and_tenant db t u2 data.role true)) := by
  refine ⟨?_, ?_, ?_, ?_, ?_, ?_⟩
  · intro h
    simp only [update_tenant_user, hu]
    rw [if_pos ⟨h, trivial⟩]
  · intro h
    simp only [update_tenant_user, hu]
    rw [if_neg (fun hc => h hc.2)]
  · intro h
    simp only [update_tenant_user, hu]
    rw [if_neg (fun hc => hc.1 h)]
  · intro h
    simp only [assign_user_to_tenant, hu2]
    rw [if_pos ⟨h, trivial⟩]
  · intro h
    simp only [assign_user_to_tenant, hu2]
    rw [if_neg (fun hc => h hc.2)]
  · intro h
    simp only [assign_user_to_tenant, hu2]
    rw [if_neg (fun hc => hc.1 h)]

/-- Witness for `kc_mirror_failure_behavior`: with a healthy mirror,
promoting bob commits the local change. -/
theorem kc_mirror_failure_behavior_witness :
    update_tenant_user nikeDB nikeTenant 3 ⟨"bob", "tenant_admin"⟩ .ok
      = .ok (set_role_and_tenant nikeDB nikeTenant bob "tenant_admin" false) :=
  (kc_mirror_failure_behavior nikeDB nikeTenant 3 ⟨"bob", "tenant_admin"⟩ .ok
      bob bob (by decide) (by decide)).2.1 (by decide)

/-- C6: for an existing local user, identity resolution never clears
the stored tenant when the token carries no usable tenant (the link is
overwritten only on an explicit mismatch), and nothing is persisted
when neither role nor tenant changed. -/
theorem resolve_user_tenant_frame (db : DB) (claims : Claims)
    (username : String) (user : User)
    (huname : py_or claims.preferred_username claims.sub = some username)
    (hne : username.isEmpty = false)
    (hfound : get_user_by_username db username = some user) :
    (token_tenant db claims = none →
      ∃ db2 u2, resolve_user db claims = .ok (db2, u2)
        ∧ u2.tenant_id = user.tenant_id)
  ∧ (∀ t, token_tenant db claims = some t → user.tenant_id = some t.id →
      ∃ db2 u2, resolve_user db claims = .ok (db2, u2)
        ∧ u2.tenant_id = user.tenant_id)
  ∧ (user.role = derive_role claims →
      (match token_tenant db claims with
       | none => True
       | some t => user.tenant_id = some t.id) →
      resolve_user db claims = .ok (db, user)) := by
  refine ⟨?_, ?_, ?_⟩
  · intro htt
    by_cases hr : user.role = derive_role claims
    · exact ⟨db, user, by simp [resolve_user, huname, hne, hfound, htt, hr], rfl⟩
    · refine ⟨{ db with users := put_user db.users { user with role := derive_role claims } },
        { user with role := derive_role claims }, ?_, rfl⟩
      simp [resolve_user, huname, hne, hfound, htt, hr]
  · intro t htt hmatch
    by_cases hr : user.role = derive_role claims
    · refine ⟨db, user, ?_, rfl⟩
      simp [resolve_user, huname, hne, hfound, htt, hr, hmatch]
    · refine ⟨{ db with users := put_user db.users { user with role := derive_role claims } },
        { user with role := derive_role claims }, ?_, rfl⟩
      simp [resolve_user, huname, hne, hfound, htt, hr, hmatch]
  · intro hr hmatch
    cases htt : token_tenant db claims with
    | none => simp [resolve_user, huname, hne, hfound, htt, hr]
    | some t =>
        rw [htt] at hmatch
        simp [resolve_user, huname, hne, hfound, htt, hr, hmatch]

/-- Witness for `resolve_user_tenant_frame`: a token for bob with no
tenant claim leaves bob's stored Nike link untouched. -/
theorem resolve_user_tenant_frame_witness :
    resolve_user nikeDB ⟨some "bob", none, some ["user"], none, none, none⟩
      = .ok (nikeDB, bob) :=
  (resolve_user_tenant_frame nikeDB ⟨some "bob", none, some ["user"], none, none, none⟩
      "bob" bob rfl rfl (by decide)).2.2 rfl trivial

-- ============ ORDER ENGINE LEMMAS ============

/-- A product found by id carries that id. -/
theorem find_product_eq_some_id (ps : List Product) (pid : Nat) (p : Product)
    (h : find_product ps pid = some p) : p.id = pid := by
  have := List.find?_some h
  simpa using this

/-- Writing back a mutated row changes exactly the lookups of its id. -/
theorem find_product_apply_stock (ps : List Product) (p2 : Product) (pid : Nat) :
    find_product (apply_stock ps p2) pid =
      if pid = p2.id then (find_product ps pid).map (fun _ => p2)
      else find_product ps pid := by
  have hmap : find_product (apply_stock ps p2) pid
      = (find_product ps pid).map (fun q => if q.id == p2.id then p2 else q) := by
    unfold find_product apply_stock
    rw [List.find?_map]
    have hpred : ((fun p : Product => p.id == pid) ∘
        fun q : Product => if q.id == p2.id then p2 else q)
        = (fun p : Product => p.id == pid) := by
      funext q
      by_cases h : q.id = p2.id <;> simp [Function.comp, h]
    rw [hpred]
  rw [hmap]
  cases hf : find_product ps pid with
  | none => simp
  | some q0 =>
      have hid : q0.id = pid := find_product_eq_some_id ps pid q0 hf
      by_cases hpid : pid = p2.id
      · simp [hpid, hid]
      · have : ¬q0.id = p2.id := by rw [hid]; exact hpid
        simp [hpid, hid, this]

theorem orderedQty_nil (pid : Nat) : orderedQty pid [] = 0 := rfl

theorem orderedQty_cons (pid : Nat) (it : OrderItemInput) (rest : List OrderItemInput) :
    orderedQty pid (it :: rest) =
      (if it.product_id = pid then it.quantity else 0) + orderedQty pid rest := by
  by_cases h : it.product_id = pid <;> simp [orderedQty, List.filter_cons, h]

/-- An item list with no occurrence of `pid` orders zero of it. -/
theorem orderedQty_eq_zero (pid : Nat) (items : List OrderItemInput)
    (h : ∀ x ∈ items, x.product_id ≠ pid) : orderedQty pid items = 0 := by
  unfold orderedQty
  have : items.filter (fun it => it.product_id == pid) = [] := by
    rw [List.filter_eq_nil_iff]
    intro a ha
    simp [h a ha]
  rw [this]
  rfl

/-- The item loop's only effect on the products table is to decrement
each product's `available_quantity` by the total quantity ordered of it
(every other field, and the set of rows, is untouched). -/
theorem process_items_find (items : List OrderItemInput) (ps ps' : List Product)
    (pend : List PendingItem) (tq : Int) (ta : ℚ)
    (h : process_items ps items = .ok (ps', pend, tq, ta)) (pid : Nat) :
    find_product ps' pid = (find_product ps pid).map
      (fun p => { p with
        available_quantity := p.available_quantity - orderedQty pid items }) := by
  induction items generalizing ps pend tq ta with
  | nil =>
      simp only [process_items, Except.ok.injEq, Prod.mk.injEq] at h
      obtain ⟨rfl, -, -, -⟩ := h
      cases hf : find_product ps pid with
      | none => simp
      | some p =>
          cases p
          simp [orderedQty_nil]
  | cons it rest ih =>
      simp only [process_items] at h
      split at h
      · simp at h
      · cases hfp : find_product ps it.product_id with
        | none => rw [hfp] at h; simp at h
        | some prod =>
            rw [hfp] at h
            dsimp only at h
            split at h
            · simp at h
            · cases hrec : process_items
                  (apply_stock ps
                    { prod with
                        available_quantity := prod.available_quantity - it.quantity })
                  rest with
              | error e => rw [hrec] at h; simp at h
              | ok r =>
                  obtain ⟨psr, pendr, tqr, tar⟩ := r
                  rw [hrec] at h
                  simp only [Except.ok.injEq, Prod.mk.injEq] at h
                  obtain ⟨rfl, -, -, -⟩ := h
                  have hprodid : prod.id = it.product_id :=
                    find_product_eq_some_id ps it.product_id prod hfp
                  have hstep := find_product_apply_stock ps
                    { prod with
                        available_quantity := prod.available_quantity - it.quantity } pid
                  have hih := ih _ _ _ _ hrec
                  rw [hih, hstep]
                  by_cases hp : it.product_id = pid
                  · rw [if_pos (hp.symm.trans hprodid.symm)]
                    have hfind : find_product ps pid = some prod := by
                      rw [← hp]; exact hfp
                    rw [hfind]
                    rw [orderedQty_cons, if_pos hp]
                    simp [Product.mk.injEq]
                    omega
                  · rw [if_neg (fun hh => hp (hprodid.symm.trans hh.symm))]
                    rw [orderedQty_cons, if_neg hp]
                    cases hf : find_product ps pid with
                    | none => simp
                    | some q0 =>
                        simp [Product.mk.injEq]

/-- Writing back a row that keeps its price leaves every price lookup
unchanged. -/
theorem priceOf_apply_stock (ps : List Product) (prod p2 : Product) (pid : Nat)
    (hfp : find_product ps p2.id = some prod) (hprice : p2.price = prod.price) :
    priceOf (apply_stock ps p2) pid = priceOf ps pid := by
  unfold priceOf
  rw [find_product_apply_stock]
  by_cases h : pid = p2.id
  · rw [if_pos h]
    subst h
    rw [hfp]
    simp [hprice]
  · rw [if_neg h]

/-- The totals and staged items of a successful item loop: the total
quantity is the sum of the requested quantities, the total amount the
sum of price-at-order-time times quantity, and each staged item
snapshots the product's price at order time. -/
theorem process_items_totals (items : List OrderItemInput) (ps ps' : List Product)
    (pend : List PendingItem) (tq : Int) (ta : ℚ)
    (h : process_items ps items = .ok (ps', pend, tq, ta)) :
    tq = (items.map (fun it => it.quantity)).sum
  ∧ ta = (items.map (fun it => priceOf ps it.product_id * it.quantity)).sum
  ∧ pend = items.map (fun it =>
      ⟨it.product_id, it.quantity, priceOf ps it.product_id⟩) := by
  induction items generalizing ps pend tq ta with
  | nil =>
      simp only [process_items, Except.ok.injEq, Prod.mk.injEq] at h
      obtain ⟨-, rfl, rfl, rfl⟩ := h
      simp
  | cons it rest ih =>
      simp only [process_items] at h
      split at h
      · simp at h
      · cases hfp : find_product ps it.product_id with
        | none => rw [hfp] at h; simp at h
        | some prod =>
            rw [hfp] at h
            dsimp only at h
            split at h
            · simp at h
            · cases hrec : process_items
                  (apply_stock ps
                    { prod with
                        available_quantity := prod.available_quantity - it.quantity })
                  rest with
              | error e => rw [hrec] at h; simp at h
              | ok r =>
                  obtain ⟨psr, pendr, tqr, tar⟩ := r
                  rw [hrec] at h
                  simp only [Except.ok.injEq, Prod.mk.injEq] at h
                  obtain ⟨rfl, rfl, rfl, rfl⟩ := h
                  have hprodid : prod.id = it.product_id :=
                    find_product_eq_some_id ps it.product_id prod hfp
                  have hfp2 : find_product ps
                      ({ prod with available_quantity :=
                          prod.available_quantity - it.quantity } : Product).id
                      = some prod := by
                    show find_product ps prod.id = some prod
                    rw [hprodid]; exact hfp
                  have hps2 : ∀ q, priceOf
                      (apply_stock ps
                        { prod with
                            available_quantity := prod.available_quantity - it.quantity }) q
                      = priceOf ps q :=
                    fun q => priceOf_apply_stock ps prod _ q hfp2 rfl
                  obtain ⟨ht1, ht2, ht3⟩ := ih _ _ _ _ hrec
                  simp only [hps2] at ht2 ht3
                  have hhead : priceOf ps it.product_id = prod.price := by
                    unfold priceOf
                    rw [hfp]
                  refine ⟨?_, ?_, ?_⟩
                  · rw [ht1]; simp
                  · rw [ht2]; simp [hhead]
                  · rw [ht3]; simp [hhead]

/-- In a successful item loop, every product actually ordered ends with
a non-negative stock. -/
theorem process_items_touched_nonneg (items : List OrderItemInput)
    (ps ps' : List Product) (pend : List PendingItem) (tq : Int) (ta : ℚ)
    (h : process_items ps items = .ok (ps', pend, tq, ta)) (pid : Nat)
    (hmem : ∃ x ∈ items, x.product_id = pid) :
    ∃ p', find_product ps' pid = some p' ∧ 0 ≤ p'.available_quantity := by
  induction items generalizing ps pend tq ta with
  | nil =>
      obtain ⟨x, hx, -⟩ := hmem
      exact absurd hx (List.not_mem_nil x)
  | cons it rest ih =>
      simp only [process_items] at h
      by_cases hq : it.quantity ≤ 0
      · rw [if_pos hq] at h; simp at h
      · rw [if_neg hq] at h
        cases hfp : find_product ps it.product_id with
        | none => rw [hfp] at h; simp at h
        | some prod =>
            rw [hfp] at h
            dsimp only at h
            by_cases hst : prod.available_quantity < it.quantity
            · rw [if_pos hst] at h; simp at h
            · rw [if_neg hst] at h
              cases hrec : process_items
                  (apply_stock ps
                    { prod with
                        available_quantity := prod.available_quantity - it.quantity })
                  rest with
              | error e => rw [hrec] at h; simp at h
              | ok r =>
                  obtain ⟨psr, pendr, tqr, tar⟩ := r
                  rw [hrec] at h
                  simp only [Except.ok.injEq, Prod.mk.injEq] at h
                  obtain ⟨rfl, -, -, -⟩ := h
                  by_cases hrest : ∃ x ∈ rest, x.product_id = pid
                  · exact ih _ _ _ _ hrec hrest
                  · have hprodid : prod.id = it.product_id :=
                      find_product_eq_some_id ps it.product_id prod hfp
                    have hpid : it.product_id = pid := by
                      rcases hmem with ⟨x, hx, hxp⟩
                      rcases List.mem_cons.mp hx with rfl | hx2
                      · exact hxp
                      · exact absurd ⟨x, hx2, hxp⟩ hrest
                    push_neg at hrest
                    have h0 : orderedQty pid rest = 0 :=
                      orderedQty_eq_zero pid rest hrest
                    rw [process_items_find rest _ _ _ _ _ hrec pid,
                      find_product_apply_stock,
                      if_pos (hpid.symm.trans hprodid.symm)]
                    have hfind : find_product ps pid = some prod := by
                      rw [← hpid]; exact hfp
                    rw [hfind]
                    simp only [Option.map_some']
                    refine ⟨_, rfl, ?_⟩
                    dsimp only
                    omega

/-- A failing item anywhere after a successfully processed prefix makes
the whole item loop raise. -/
theorem process_items_fail_mid (pre : List OrderItemInput) (it : OrderItemInput)
    (rest : List OrderItemInput) (ps ps2 : List Product) (pend : List PendingItem)
    (tq : Int) (ta : ℚ)
    (hpre : process_items ps pre = .ok (ps2, pend, tq, ta))
    (hfail : item_fails ps2 it = true) :
    ∃ e, process_items ps (pre ++ it :: rest) = .error e := by
  induction pre generalizing ps pend tq ta with
  | nil =>
      simp only [process_items, Except.ok.injEq, Prod.mk.injEq] at hpre
      obtain ⟨rfl, -, -, -⟩ := hpre
      simp only [List.nil_append]
      by_cases h1 : it.quantity ≤ 0
      · exact ⟨.valueError "Invalid quantity. Quantity must be positive.",
          by simp [process_items, h1]⟩
      · cases hf : find_product ps it.product_id with
        | none =>
            exact ⟨.resourceNotFound "Product" (toString it.product_id),
              by simp [process_items, h1, hf]⟩
        | some prod =>
            have hstock : prod.available_quantity < it.quantity := by
              simp [item_fails, h1, hf] at hfail
              exact hfail
            exact ⟨.valueError "Insufficient stock",
              by simp [process_items, h1, hf, hstock]⟩
  | cons a pre ih =>
      simp only [process_items] at hpre
      by_cases hq : a.quantity ≤ 0
      · rw [if_pos hq] at hpre; simp at hpre
      · rw [if_neg hq] at hpre
        cases hfa : find_product ps a.product_id with
        | none => rw [hfa] at hpre; simp at hpre
        | some proda =>
            rw [hfa] at hpre
            dsimp only at hpre
            by_cases hst : proda.available_quantity < a.quantity
            · rw [if_pos hst] at hpre; simp at hpre
            · rw [if_neg hst] at hpre
              cases hreca : process_items
                  (apply_stock ps
                    { proda with
                        available_quantity := proda.available_quantity - a.quantity })
                  pre with
              | error e0 => rw [hreca] at hpre; simp at hpre
              | ok r =>
                  obtain ⟨psr, pendr, tqr, tar⟩ := r
                  rw [hreca] at hpre
                  simp only [Except.ok.injEq, Prod.mk.injEq] at hpre
                  obtain ⟨rfl, -, -, -⟩ := hpre
                  obtain ⟨e, he⟩ := ih _ _ _ _ hreca
                  refine ⟨e, ?_⟩
                  rw [List.cons_append]
                  simp only [process_items]
                  rw [if_neg hq, hfa]
                  dsimp only
                  rw [if_neg hst, he]

/-- C1: create_order is atomic - for any non-empty item list, if the
item processed after a successfully processed prefix fails (non-positive
quantity, missing product, or insufficient stock in the session state it
is processed in), the whole request raises and the caller-visible
database is the unchanged input: no stock decrement, no OrderItem and no
Order row from this call remain. -/
theorem create_order_atomic (db : DB) (user : User)
    (pre : List OrderItemInput) (it : OrderItemInput) (rest : List OrderItemInput)
    (ps2 : List Product) (pend : List PendingItem) (tq : Int) (ta : ℚ)
    (hpre : process_items db.products pre = .ok (ps2, pend, tq, ta))
    (hfail : item_fails ps2 it = true) :
    ∃ e, create_order_endpoint db user (pre ++ it :: rest) = (db, .error e) := by
  obtain ⟨e, he⟩ :=
    process_items_fail_mid pre it rest db.products ps2 pend tq ta hpre hfail
  refine ⟨e, ?_⟩
  have hne : (pre ++ it :: rest).isEmpty = false := by
    cases pre <;> simp
  simp [create_order_endpoint, create_order, hne, he]

/-- Witness for `create_order_atomic`: an order for 2 then 100 Air Max
(only 50 in stock) fails as a whole and leaves `nikeDB` unchanged. -/
theorem create_order_atomic_witness :
    ∃ e, create_order_endpoint nikeDB alice [⟨1, 2⟩, ⟨1, 100⟩] = (nikeDB, .error e) :=
  create_order_atomic nikeDB alice [⟨1, 2⟩] ⟨1, 100⟩ []
    [{ airMax with available_quantity := 48 }] [⟨1, 2, 120⟩] 2 240
    (by norm_num [process_items, find_product, apply_stock, nikeDB, airMax,
        nikeTenant, adidasTenant])
    (by decide)

/-- C2: a successful create_order returns an order whose total_quantity
is the sum of the requested quantities and whose total_amount is the sum
of price-at-order-time times quantity; each OrderItem snapshots the unit
price; every product's stock is decremented by exactly the quantity
ordered of it; and every ordered product ends with non-negative stock. -/
theorem create_order_success (db : DB) (user : User)
    (items : List OrderItemInput) (db2 : DB) (o : Order)
    (h : create_order db user items = .ok (db2, o)) :
    o.total_quantity = (items.map (fun it => it.quantity)).sum
  ∧ o.total_amount = (items.map (fun it =>
      priceOf db.products it.product_id * it.quantity)).sum
  ∧ db2.order_items = db.order_items ++ items.map (fun it =>
      ⟨o.id, it.product_id, it.quantity, priceOf db.products it.product_id⟩)
  ∧ (∀ pid, find_product db2.products pid = (find_product db.products pid).map
      (fun p => { p with
        available_quantity := p.available_quantity - orderedQty pid items }))
  ∧ (∀ pid, (∃ x ∈ items, x.product_id = pid) →
      ∃ p', find_product db2.products pid = some p'
        ∧ 0 ≤ p'.available_quantity) := by
  unfold create_order at h
  split at h
  · simp at h
  · cases hpi : process_items db.products items with
    | error e => rw [hpi] at h; simp at h
    | ok r =>
        obtain ⟨ps, pend, tq, ta⟩ := r
        rw [hpi] at h
        simp only [Except.ok.injEq, Prod.mk.injEq] at h
        obtain ⟨rfl, rfl⟩ := h
        obtain ⟨ht1, ht2, ht3⟩ := process_items_totals items db.products ps pend tq ta hpi
        refine ⟨ht1, ht2, ?_, ?_, ?_⟩
        · rw [ht3]
          simp [List.map_map, Function.comp]
        · intro pid
          exact process_items_find items db.products ps pend tq ta hpi pid
        · intro pid hmem
          exact process_items_touched_nonneg items db.products ps pend tq ta hpi pid hmem

/-- The Nike scenario order: 2 Air Max at 120.0 for alice. -/
def nikeOrder : Order := ⟨1, 1, 2, 240⟩

/-- `nikeDB` after the scenario order: stock 48, one order, one item. -/
def nikeDB3 : DB :=
  { nikeDB with
      products := [{ airMax with available_quantity := 48 }]
      orders := [nikeOrder]
      order_items := [⟨1, 1, 2, 120⟩]
      next_order_id := 2 }

/-- Witness for `create_order_success`: the spec's scenario - ordering
quantity 2 of the 120.0-priced Air Max yields total_quantity 2,
total_amount 240.0 and stock 48. -/
theorem create_order_success_witness :
    create_order nikeDB alice [⟨1, 2⟩] = .ok (nikeDB3, nikeOrder)
  ∧ nikeOrder.total_quantity = (([⟨1, 2⟩] : List OrderItemInput).map
      (fun it => it.quantity)).sum
  ∧ nikeOrder.total_amount = (([⟨1, 2⟩] : List OrderItemInput).map (fun it =>
      priceOf nikeDB.products it.product_id * it.quantity)).sum
  ∧ (∀ pid, find_product nikeDB3.products pid
      = (find_product nikeDB.products pid).map
        (fun p => { p with
          available_quantity :=
            p.available_quantity - orderedQty pid [⟨1, 2⟩] })) :=
  by
  have h : create_order nikeDB alice [⟨1, 2⟩] = .ok (nikeDB3, nikeOrder) := by
    norm_num [create_order, process_items, find_product, apply_stock, nikeDB,
      airMax, nikeDB3, nikeOrder, nikeTenant, adidasTenant, alice]
  exact ⟨h, (create_order_success nikeDB alice [⟨1, 2⟩] nikeDB3 nikeOrder h).1,
    (create_order_success nikeDB alice [⟨1, 2⟩] nikeDB3 nikeOrder h).2.1,
    (create_order_success nikeDB alice [⟨1, 2⟩] nikeDB3 nikeOrder h).2.2.2.1⟩

end Ecom
